import Mathlib

/-!
Verification of the RemitLend Stellar scaffold: a shallow embedding of the
loan-manager and test-token contracts together with the loan-lifecycle
controller, loan store and amortization engine that the specification
describes.  Types declared in `src/contracts/loan_manager/src/lib.rs`
(`LoanStatus`, `Loan`, `DataKey`, the empty `LoanManager` surface) and in
`src/contracts/test_token/src/lib.rs` (`TestToken`) are translated directly;
the controller, store operations and schedule arithmetic do not appear in the
source tree and are modelled from the specification's words, as marked on each
definition.

Machine integers are embedded as `Nat` (u32/u64) and `Int` (i128); no
arithmetic in the embedded operations can overflow the original widths for the
inputs the contracts accept, except where an explicit bound check is modelled
(token mint).
-/

namespace RemitLend

/-- Account identities are abstract; only equality is used. -/
abbrev Address := Nat

/-- Embeds the Rust enum `LoanStatus` (loan_manager/src/lib.rs):
`Pending = 0, Active = 1, Repaid = 2, Defaulted = 3`. -/
inductive LoanStatus where
  | Pending
  | Active
  | Repaid
  | Defaulted
deriving DecidableEq, Repr

/-- The explicit discriminants of the Rust `LoanStatus` enum. -/
def LoanStatus.toCode : LoanStatus → Nat
  | .Pending => 0
  | .Active => 1
  | .Repaid => 2
  | .Defaulted => 3

/-- Embeds the Rust struct `Loan` (loan_manager/src/lib.rs), field for field.
`u64` fields become `Nat`, `i128` fields become `Int`, `u32` fields become
`Nat`, `Address` is the abstract identity type. -/
structure Loan where
  loan_id : Nat
  borrower : Address
  nft_collateral_id : Nat
  loan_amount : Int
  outstanding_balance : Int
  total_repaid : Int
  interest_rate : Nat
  duration_months : Nat
  monthly_payment : Int
  start_timestamp : Nat
  next_payment_due : Nat
  status : LoanStatus
  payments_made : Nat
  payments_missed : Nat
deriving Repr, DecidableEq

/-- Embeds the Rust enum `DataKey` (loan_manager/src/lib.rs): the loan
counter, the loan record keyed by loan id, the borrower index keyed by
address, and the four singleton configuration slots. -/
inductive DataKey where
  | LoanCounter
  | Loan (id : Nat)
  | BorrowerLoans (borrower : Address)
  | RemittanceNFTContract
  | LendingPoolContract
  | OracleContract
  | USDCTokenAddress
deriving DecidableEq, Repr

/-- The error taxonomy of the specification (section 7). -/
inductive LoanError where
  | NotFound
  | InvalidState
  | InsufficientCollateral
  | CollateralLockFailed
  | DisbursementFailed
  | TransferFailed
  | OverpaymentRejected
  | LiquidationFailed
deriving DecidableEq, Repr

/-- Round-half-up division on naturals: `(a + b / 2) / b`, computed without a
separate halving step as `(2a + b) / (2b)`. -/
def roundHalfUpDiv (a b : Nat) : Nat := (2 * a + b) / (2 * b)

/-- Fixed-point scale used by the amortization arithmetic. -/
def scale : Nat := 1000000000

/-- Fixed-point power: `base` is scaled by `scale`, and each multiplication is
rounded half-up back to the scale. -/
def fixedPow (base : Nat) : Nat → Nat
  | 0 => scale
  | n + 1 => roundHalfUpDiv (fixedPow base n * base) scale

/-- Modelled from the spec: the Amortization Engine's `compute_schedule`
(section 4.2) is absent from src/.  It uses the fixed-payment amortization
formula on the monthly-compounded rate `r = rate_bps / 10000 / 12` held in
fixed point at `scale`, with round-half-up at each division; when the rate is
zero the monthly payment is `principal / months` by integer division, the
carried remainder being absorbed in the final payment, and the total scheduled
interest is zero.  For a positive rate the total interest is the accounting
identity `monthly_payment * months - principal`. -/
def compute_schedule (principal : Int) (rateBps months : Nat) : Int × Int :=
  if months = 0 then (0, 0)
  else
    let p : Nat := principal.toNat
    if rateBps = 0 then (((p / months : Nat) : Int), 0)
    else
      let r : Nat := roundHalfUpDiv (rateBps * scale) 120000
      let f : Nat := fixedPow (scale + r) months
      let pay : Nat := roundHalfUpDiv (p * r * f) ((f - scale) * scale)
      ((pay : Int), ((pay : Int) * (months : Int) - (p : Int)))

/-- Embeds the Rust `#[contractimpl] impl LoanManager {}` block: the set of
invocable entry points it declares is empty, so this type has no
constructors. -/
inductive LoanManagerEntry : Type

/-- The persistent storage of the loan manager: the loan counter, the loan
records by id, and the per-borrower index, exactly the mutable `DataKey`
slots.  Modelled from the spec (section 4.1): the store operations are absent
from src/. -/
structure Store where
  counter : Nat
  loans : Nat → Option Loan
  borrowerIdx : Address → List Nat

/-- Modelled from the spec: the initial store; the loan counter starts at 1
(section 4.1). -/
def Store.init : Store :=
  { counter := 1, loans := fun _ => none, borrowerIdx := fun _ => [] }

/-- Modelled from the spec: `next_id()` atomically increments the counter and
returns the assigned id (section 4.1). -/
def Store.nextId (s : Store) : Nat × Store :=
  (s.counter, { s with counter := s.counter + 1 })

/-- Modelled from the spec: `get(loan_id)` fails with `NotFound` if absent
(section 4.1). -/
def Store.get (s : Store) (id : Nat) : Except LoanError Loan :=
  match s.loans id with
  | none => .error .NotFound
  | some l => .ok l

/-- Modelled from the spec: `put(loan)` overwrites the record for
`loan.loan_id` (section 4.1). -/
def Store.putLoan (s : Store) (l : Loan) : Store :=
  { s with loans := fun id => if id = l.loan_id then some l else s.loans id }

/-- Modelled from the spec: origination appends the new id to the borrower
index (section 4.3). -/
def Store.appendBorrower (s : Store) (b : Address) (id : Nat) : Store :=
  { s with borrowerIdx := fun a => if a = b then s.borrowerIdx a ++ [id] else s.borrowerIdx a }

/-- The world the controller acts on: the store plus the externally held set
of locked collateral ids (custody state, observed through the facade). -/
structure World where
  store : Store
  locked : List Nat

/-- The initial world: fresh store, no collateral locked. -/
def World.init : World := { store := Store.init, locked := [] }

/-- The four read-only configuration slots plus the configured collateral
ratio (basis points) and missed-payment threshold the spec leaves abstract. -/
structure Config where
  nftContract : Address
  poolContract : Address
  oracleContract : Address
  usdcToken : Address
  collateralRatioBps : Nat
  missedThreshold : Nat

/-- The outcomes of the external collaborators (custody, pool, oracle, token)
during one invocation, supplied by the environment: each facade call is
synchronous and either succeeds or fails (section 6). -/
structure Ext where
  lockOk : Bool
  disburseOk : Bool
  transferOk : Bool
  releaseOk : Bool
  liquidateOk : Bool
  valuation : Int

/-- Modelled from the spec: one month-equivalent interval in seconds
(section 3 leaves the exact value open; thirty days is used). -/
def monthSeconds : Nat := 2592000

/-- Invoking the `LoanManager` contract: since the `#[contractimpl]` block is
empty there is no entry point to dispatch, and the function is defined by the
eliminator of the empty entry type. -/
def LoanManager.invoke : LoanManagerEntry → World → Except LoanError Unit × World :=
  fun e => nomatch e

/-- Modelled from the spec: the `Originate` entry point (section 4.3) is
absent from src/.  It validates the amount and duration, checks the
oracle-reported collateral value against the configured ratio, locks the
collateral, requests disbursement (unwinding the collateral lock before
returning on failure), then assigns a fresh id, computes the schedule, stores
the `Active` record with the balance set to the principal plus the total
scheduled interest, and appends to the borrower index.  Every error leaves the
world unchanged; the returned world is the post-invocation state.  The spec
names no error kind for the amount/duration validation; `InvalidState` is
used.  `origLoan` is the record stored on success: fresh id from the counter,
balance equal to the principal plus the (non-negative part of the) total
scheduled interest, status `Active`, first due date one month ahead. -/
def origLoan (w : World) (borrower : Address) (nftId : Nat) (amount : Int)
    (rateBps months now : Nat) : Loan :=
  { loan_id := w.store.counter
    borrower := borrower
    nft_collateral_id := nftId
    loan_amount := amount
    outstanding_balance := amount + max (compute_schedule amount rateBps months).2 0
    total_repaid := 0
    interest_rate := rateBps
    duration_months := months
    monthly_payment := (compute_schedule amount rateBps months).1
    start_timestamp := now
    next_payment_due := now + monthSeconds
    status := .Active
    payments_made := 0
    payments_missed := 0 }

def originate (cfg : Config) (env : Ext) (w : World) (borrower : Address)
    (nftId : Nat) (amount : Int) (rateBps months now : Nat) :
    Except LoanError Nat × World :=
  if amount ≤ 0 ∨ months = 0 then (.error .InvalidState, w)
  else if env.valuation * 10000 < amount * (cfg.collateralRatioBps : Int) then
    (.error .InsufficientCollateral, w)
  else if ¬ env.lockOk then (.error .CollateralLockFailed, w)
  else if ¬ env.disburseOk then
    -- the collateral was locked just before the disbursement request, and the
    -- failure unwinds that lock before returning
    (.error .DisbursementFailed, { w with locked := (nftId :: w.locked).erase nftId })
  else
    let idStore := w.store.nextId
    let loan := origLoan w borrower nftId amount rateBps months now
    (.ok idStore.1,
      { store := (idStore.2.putLoan loan).appendBorrower borrower idStore.1,
        locked := nftId :: w.locked })

/-- Modelled from the spec: the `MakePayment` entry point (section 4.3) is
absent from src/.  `NotFound` if the loan is missing, `InvalidState` unless
`Active`, non-positive amounts rejected (the spec names no kind;
`InvalidState` is used), the token transfer attempted first (`TransferFailed`
mutates nothing), an amount exceeding the outstanding balance rejected with
`OverpaymentRejected` under the atomic all-or-nothing semantics (section 7),
and on success the balance reduced, `total_repaid` and `payments_made`
incremented, the due date advanced one month, and on reaching zero the status
set to `Repaid` with the collateral released (a release failure does not
revert the repayment).  `payLoan` is the record update an accepted payment
applies. -/
def payLoan (loan : Loan) (amount : Int) : Loan :=
  { loan with
      outstanding_balance := loan.outstanding_balance - amount
      total_repaid := loan.total_repaid + amount
      payments_made := loan.payments_made + 1
      next_payment_due := loan.next_payment_due + monthSeconds
      status := if loan.outstanding_balance - amount = 0 then .Repaid else .Active }

def makePayment (env : Ext) (w : World) (loanId : Nat) (amount : Int) :
    Except LoanError Unit × World :=
  match w.store.loans loanId with
  | none => (.error .NotFound, w)
  | some loan =>
    if loan.status ≠ .Active then (.error .InvalidState, w)
    else if amount ≤ 0 then (.error .InvalidState, w)
    else if ¬ env.transferOk then (.error .TransferFailed, w)
    else if loan.outstanding_balance < amount then (.error .OverpaymentRejected, w)
    else
      let loan' := payLoan loan amount
      let w1 : World := { w with store := w.store.putLoan loan' }
      if loan'.outstanding_balance = 0 ∧ env.releaseOk then
        (.ok (), { w1 with locked := w1.locked.erase loan.nft_collateral_id })
      else (.ok (), w1)

/-- Modelled from the spec: the `CheckDefault` entry point (section 4.3) is
absent from src/.  `NotFound`/`InvalidState` as for payments; when the due
date has passed the missed counter is incremented, and past the configured
threshold the loan becomes `Defaulted` with a liquidation attempt whose
failure is reported as `LiquidationFailed` while the status still becomes
`Defaulted`.  `missedUpdate` is the record update applied when the due date
has passed: the missed counter advances, and past the threshold the status
becomes `Defaulted`. -/
def missedUpdate (cfg : Config) (loan : Loan) : Loan :=
  if cfg.missedThreshold < loan.payments_missed + 1 then
    { loan with payments_missed := loan.payments_missed + 1, status := .Defaulted }
  else
    { loan with payments_missed := loan.payments_missed + 1 }

def checkDefault (cfg : Config) (env : Ext) (w : World) (loanId now : Nat) :
    Except LoanError Unit × World :=
  match w.store.loans loanId with
  | none => (.error .NotFound, w)
  | some loan =>
    if loan.status ≠ .Active then (.error .InvalidState, w)
    else if now ≤ loan.next_payment_due then (.ok (), w)
    else
      let loan' := missedUpdate cfg loan
      let w1 : World := { w with store := w.store.putLoan loan' }
      if loan'.status = .Defaulted then
        if env.liquidateOk then
          (.ok (), { w1 with locked := w1.locked.erase loan.nft_collateral_id })
        else (.error .LiquidationFailed, w1)
      else (.ok (), w1)

/-- The three lifecycle entry points, as one operation type for statements
that quantify over an arbitrary invocation. -/
inductive Op where
  | originate (borrower : Address) (nftId : Nat) (amount : Int) (rateBps months now : Nat)
  | makePayment (loanId : Nat) (amount : Int)
  | checkDefault (loanId : Nat) (now : Nat)

/-- Dispatch one invocation. -/
def step (cfg : Config) (env : Ext) (op : Op) (w : World) :
    Except LoanError Unit × World :=
  match op with
  | .originate b n a r m t =>
    let res := originate cfg env w b n a r m t
    (res.1.map (fun _ => ()), res.2)
  | .makePayment id a => makePayment env w id a
  | .checkDefault id t => checkDefault cfg env w id t

/-- Run a trace of invocations, each with its own external outcomes, from the
initial world. -/
def run (cfg : Config) (trace : List (Ext × Op)) : World :=
  trace.foldl (fun w p => (step cfg p.1 p.2 w).2) World.init

/-- The storage invariant: every persisted record is keyed by its own id,
below the counter, with a non-negative outstanding balance that is zero only
on `Repaid` loans. -/
def Inv (w : World) : Prop :=
  ∀ id l, w.store.loans id = some l →
    l.loan_id = id ∧ id < w.store.counter ∧ 0 ≤ l.outstanding_balance ∧
      (l.outstanding_balance = 0 → l.status = .Repaid)

/-- Apply a sequence of payment attempts on one loan. -/
def applyPayments (env : Ext) (w : World) (loanId : Nat) (amounts : List Int) : World :=
  amounts.foldl (fun w a => (makePayment env w loanId a).2) w

/-- The allowed edges of the status graph, reflexive steps included:
`Pending → Active`, `Active → Repaid`, `Active → Defaulted`. -/
def StatusEdge (s t : LoanStatus) : Prop :=
  s = t ∨ (s = .Pending ∧ t = .Active) ∨
    (s = .Active ∧ (t = .Repaid ∨ t = .Defaulted))

/-- Errors of the test-token library facade. -/
inductive TokenError where
  | NegativeAmount
  | MathOverflow
deriving DecidableEq, Repr

/-- Upper bound of the i128 amount type. -/
def i128Max : Int := 2 ^ 127 - 1

/-- Balances and total supply of the test token. -/
structure TokenState where
  balances : Address → Int
  totalSupply : Int

/-- Embeds `TestToken::mint` (test_token/src/lib.rs): the entry point takes
only the account and the amount and performs no authorization check, so the
invoker is an explicit parameter the body never consults.  The delegated
`Base::mint` of the token library is not part of this repository and is
modelled from the spec's token-facade semantics (section 6): it rejects a
negative amount, fails on i128 supply overflow, and otherwise credits the
account by exactly `amount`. -/
def TestToken.mint (_invoker : Address) (s : TokenState) (account : Address)
    (amount : Int) : Except TokenError TokenState :=
  if amount < 0 then .error .NegativeAmount
  else if i128Max < s.totalSupply + amount then .error .MathOverflow
  else
    .ok { balances := fun a => if a = account then s.balances a + amount else s.balances a
          totalSupply := s.totalSupply + amount }

/-! ## Theorems -/

/-- Claim C1: the `LoanManager` contract's public surface is empty: its entry
type has no inhabitant, so no invocation of `LoanManager` exists, and
(vacuously over all invocations) no invocation mutates the world holding the
loan records, counter, borrower index and configuration slots. -/
theorem c1_loan_manager_surface_empty :
    IsEmpty LoanManagerEntry ∧
      ∀ (e : LoanManagerEntry) (w : World), (LoanManager.invoke e w).2 = w :=
  ⟨⟨fun e => nomatch e⟩, fun e _ => nomatch e⟩

/-- Claim C2: the `Loan` record consists of exactly the fourteen fields of the
data model (shown by the record eta law below), and `LoanStatus` ranges over
exactly the four values `Pending`, `Active`, `Repaid`, `Defaulted`, with the
source's discriminants 0, 1, 2, 3. -/
theorem c2_loan_record_shape :
    (∀ s : LoanStatus, s = .Pending ∨ s = .Active ∨ s = .Repaid ∨ s = .Defaulted) ∧
    ([LoanStatus.Pending, .Active, .Repaid, .Defaulted].Nodup) ∧
    (LoanStatus.Pending.toCode = 0 ∧ LoanStatus.Active.toCode = 1 ∧
      LoanStatus.Repaid.toCode = 2 ∧ LoanStatus.Defaulted.toCode = 3) ∧
    (∀ l : Loan,
      l = ⟨l.loan_id, l.borrower, l.nft_collateral_id, l.loan_amount,
           l.outstanding_balance, l.total_repaid, l.interest_rate,
           l.duration_months, l.monthly_payment, l.start_timestamp,
           l.next_payment_due, l.status, l.payments_made, l.payments_missed⟩) := by
  refine ⟨fun s => ?_, by decide, ⟨rfl, rfl, rfl, rfl⟩, fun l => rfl⟩
  cases s
  · exact Or.inl rfl
  · exact Or.inr (Or.inl rfl)
  · exact Or.inr (Or.inr (Or.inl rfl))
  · exact Or.inr (Or.inr (Or.inr rfl))

/-- Claim C3: every storage key is one of exactly seven variants: the loan
counter, a loan record keyed by id, a borrower index keyed by address, and the
four singleton configuration slots. -/
theorem c3_data_key_variants :
    ∀ k : DataKey, k = .LoanCounter ∨ (∃ id, k = .Loan id) ∨
      (∃ b, k = .BorrowerLoans b) ∨ k = .RemittanceNFTContract ∨
      k = .LendingPoolContract ∨ k = .OracleContract ∨ k = .USDCTokenAddress := by
  intro k
  cases k with
  | LoanCounter => exact Or.inl rfl
  | Loan id => exact Or.inr (Or.inl ⟨id, rfl⟩)
  | BorrowerLoans b => exact Or.inr (Or.inr (Or.inl ⟨b, rfl⟩))
  | RemittanceNFTContract => exact Or.inr (Or.inr (Or.inr (Or.inl rfl)))
  | LendingPoolContract => exact Or.inr (Or.inr (Or.inr (Or.inr (Or.inl rfl))))
  | OracleContract => exact Or.inr (Or.inr (Or.inr (Or.inr (Or.inr (Or.inl rfl)))))
  | USDCTokenAddress => exact Or.inr (Or.inr (Or.inr (Or.inr (Or.inr (Or.inr rfl)))))

/-- Counterexample to claim C4 as stated: at `principal = 11`, `rate_bps = 0`,
`months = 3` the schedule is `(3, 0)`, and `monthly_payment * months = 9`
differs from `principal + total_interest = 11` by two units, more than one
rounding unit; the carried remainder absorbed in the final payment is not
bounded by one unit. -/
theorem c4_counterexample :
    compute_schedule 11 0 3 = (3, 0) ∧
      ¬ ((compute_schedule 11 0 3).1 * 3 - (11 + (compute_schedule 11 0 3).2) ≤ 1 ∧
          -1 ≤ (compute_schedule 11 0 3).1 * 3 - (11 + (compute_schedule 11 0 3).2)) := by
  decide

/-- Claim C4 (amended): for every valid input triple, `compute_schedule` is
deterministic; when `rate_bps > 0` the identity is exact, `monthly_payment *
months = principal + total_interest`; when `rate_bps = 0` the monthly payment
is `principal / months` by integer division with `total_interest = 0`, so the
aggregate differs from the principal by the carried remainder
`principal mod months` absorbed in the final payment, which can exceed one
unit. -/
theorem c4_compute_schedule_amended (principal : Int) (rateBps months : Nat)
    (hp : 0 < principal) (hm : 0 < months) :
    compute_schedule principal rateBps months = compute_schedule principal rateBps months ∧
    (0 < rateBps →
      (compute_schedule principal rateBps months).1 * (months : Int) =
        principal + (compute_schedule principal rateBps months).2) ∧
    (rateBps = 0 →
      (compute_schedule principal rateBps months).1 = ((principal.toNat / months : Nat) : Int) ∧
      (compute_schedule principal rateBps months).2 = 0) := by
  have h1 : ¬ months = 0 := by omega
  refine ⟨rfl, ?_, ?_⟩
  · intro hr
    have h2 : ¬ rateBps = 0 := by omega
    simp only [compute_schedule, h1, h2, if_false, ite_false]
    rw [Int.toNat_of_nonneg hp.le]
    ring
  · intro hr0
    constructor
    · simp [compute_schedule, h1, hr0]
    · simp [compute_schedule, h1, hr0]

/-- Witness for the amended claim C4 at `(11, 0, 3)`. -/
theorem c4_witness :
    (compute_schedule 11 0 3).1 = (((11 : Int).toNat / 3 : Nat) : Int) ∧
      (compute_schedule 11 0 3).2 = 0 :=
  (c4_compute_schedule_amended 11 0 3 (by decide) (by decide)).2.2 rfl

/-- Lookup after `put`: the written id reads back the record, others are
unchanged. -/
theorem Store.putLoan_loans (s : Store) (l : Loan) (id : Nat) :
    (s.putLoan l).loans id = if id = l.loan_id then some l else s.loans id := rfl

/-- `put` leaves the counter unchanged. -/
theorem Store.putLoan_counter (s : Store) (l : Loan) :
    (s.putLoan l).counter = s.counter := rfl

/-- Appending to the borrower index leaves loan records unchanged. -/
theorem Store.appendBorrower_loans (s : Store) (b : Address) (id i : Nat) :
    (s.appendBorrower b id).loans i = s.loans i := rfl

/-- Appending to the borrower index leaves the counter unchanged. -/
theorem Store.appendBorrower_counter (s : Store) (b : Address) (id : Nat) :
    (s.appendBorrower b id).counter = s.counter := rfl

/-- Claim C5: origination is all-or-nothing.  Whenever the validations pass
and the collateral lock succeeds but disbursement fails, `originate` returns
the `DisbursementFailed` error and the world it returns is exactly the input
world: the collateral lock has been unwound and no loan record, counter
increment, or borrower-index entry is persisted. -/
theorem c5_originate_atomic (cfg : Config) (env : Ext) (w : World)
    (borrower : Address) (nftId : Nat) (amount : Int) (rateBps months now : Nat)
    (hA : 0 < amount) (hM : 0 < months)
    (hV : amount * (cfg.collateralRatioBps : Int) ≤ env.valuation * 10000)
    (hL : env.lockOk = true) (hD : env.disburseOk = false) :
    originate cfg env w borrower nftId amount rateBps months now =
      (.error .DisbursementFailed, w) := by
  have hc1 : ¬ (amount ≤ 0 ∨ months = 0) := by
    rintro (h | h) <;> omega
  have hc2 : ¬ (env.valuation * 10000 < amount * (cfg.collateralRatioBps : Int)) :=
    not_lt.mpr hV
  simp [originate, hc1, hc2, hL, hD, List.erase_cons_head]

/-- A configuration used by the concrete witnesses: collateral ratio 150%,
missed-payment threshold 3. -/
def cfg0 : Config :=
  { nftContract := 0, poolContract := 0, oracleContract := 0, usdcToken := 0,
    collateralRatioBps := 15000, missedThreshold := 3 }

/-- An environment in which every external call succeeds. -/
def extOk : Ext :=
  { lockOk := true, disburseOk := true, transferOk := true, releaseOk := true,
    liquidateOk := true, valuation := 2000000 }

/-- An environment in which disbursement fails after a successful lock. -/
def extFail : Ext :=
  { lockOk := true, disburseOk := false, transferOk := true, releaseOk := true,
    liquidateOk := true, valuation := 2000000 }

/-- Witness for claim C5: a concrete origination against the initial world,
with the lock succeeding and the disbursement failing, returns the error and
the unchanged initial world. -/
theorem c5_witness :
    originate cfg0 extFail World.init 7 42 1000 500 12 0 =
      (.error .DisbursementFailed, World.init) :=
  c5_originate_atomic cfg0 extFail World.init 7 42 1000 500 12 0
    (by decide) (by decide) (by decide) rfl rfl

/-- Claim C6: for every persisted loan in status `Active` with a non-negative
balance, and every payment amount strictly above the outstanding balance,
`MakePayment` fails with `OverpaymentRejected` and returns the input world
unchanged, so every field of the loan record is left intact; the excess is
never silently truncated. -/
theorem c6_overpayment_rejected (env : Ext) (w : World) (loanId : Nat)
    (amount : Int) (loan : Loan)
    (hGet : w.store.loans loanId = some loan)
    (hActive : loan.status = .Active)
    (hNonneg : 0 ≤ loan.outstanding_balance)
    (hTransfer : env.transferOk = true)
    (hOver : loan.outstanding_balance < amount) :
    makePayment env w loanId amount = (.error .OverpaymentRejected, w) := by
  have hPos : ¬ amount ≤ 0 := by omega
  simp [makePayment, hGet, hActive, hTransfer, hPos, hOver]

/-- A concrete active loan used by the witnesses. -/
def loan0 : Loan :=
  { loan_id := 1, borrower := 7, nft_collateral_id := 42, loan_amount := 1000,
    outstanding_balance := 1000, total_repaid := 0, interest_rate := 0,
    duration_months := 10, monthly_payment := 100, start_timestamp := 0,
    next_payment_due := monthSeconds, status := .Active, payments_made := 0,
    payments_missed := 0 }

/-- A concrete world holding `loan0` under id 1. -/
def w1 : World :=
  { store :=
      { counter := 2,
        loans := fun id => if id = 1 then some loan0 else none,
        borrowerIdx := fun _ => [] },
    locked := [42] }

/-- Witness for claim C6: paying 5000 against the outstanding balance 1000 of
`loan0` is rejected with `OverpaymentRejected` and the world is unchanged. -/
theorem c6_witness :
    makePayment extOk w1 1 5000 = (.error .OverpaymentRejected, w1) :=
  c6_overpayment_rejected extOk w1 1 5000 loan0 rfl rfl (by decide) rfl (by decide)

/-- `next_id` leaves the loan records unchanged. -/
theorem Store.nextId_loans (s : Store) (i : Nat) :
    (s.nextId.2).loans i = s.loans i := rfl

/-- The freshly originated record carries the counter as its id. -/
theorem origLoan_loan_id (w : World) (b : Address) (n : Nat) (a : Int)
    (r m t : Nat) : (origLoan w b n a r m t).loan_id = w.store.counter := rfl

/-- The freshly originated record is `Active`. -/
theorem origLoan_status (w : World) (b : Address) (n : Nat) (a : Int)
    (r m t : Nat) : (origLoan w b n a r m t).status = .Active := rfl

/-- The payment update keeps the id. -/
theorem payLoan_loan_id (l : Loan) (a : Int) : (payLoan l a).loan_id = l.loan_id := rfl

/-- The payment update subtracts the amount from the balance. -/
theorem payLoan_outstanding (l : Loan) (a : Int) :
    (payLoan l a).outstanding_balance = l.outstanding_balance - a := rfl

/-- The payment update sets `Repaid` exactly when the balance reaches zero. -/
theorem payLoan_status (l : Loan) (a : Int) :
    (payLoan l a).status =
      if l.outstanding_balance - a = 0 then LoanStatus.Repaid else .Active := rfl

/-- The missed-payment update keeps the id. -/
theorem missedUpdate_loan_id (cfg : Config) (l : Loan) :
    (missedUpdate cfg l).loan_id = l.loan_id := by
  unfold missedUpdate; split <;> rfl

/-- The missed-payment update keeps the balance. -/
theorem missedUpdate_outstanding (cfg : Config) (l : Loan) :
    (missedUpdate cfg l).outstanding_balance = l.outstanding_balance := by
  unfold missedUpdate; split <;> rfl

/-- The missed-payment update either defaults the loan or keeps its status. -/
theorem missedUpdate_status (cfg : Config) (l : Loan) :
    (missedUpdate cfg l).status = .Defaulted ∨ (missedUpdate cfg l).status = l.status := by
  unfold missedUpdate; split
  · exact Or.inl rfl
  · exact Or.inr rfl

/-- `originate` either leaves the store untouched (every error path) or, with
a positive principal, bumps the counter and stores the fresh record. -/
theorem originate_store (cfg : Config) (env : Ext) (w : World) (b : Address)
    (n : Nat) (a : Int) (r m t : Nat) :
    (originate cfg env w b n a r m t).2.store = w.store ∨
      (0 < a ∧
        (originate cfg env w b n a r m t).2.store =
          ((w.store.nextId.2).putLoan (origLoan w b n a r m t)).appendBorrower
            b w.store.counter) := by
  unfold originate
  by_cases h1 : a ≤ 0 ∨ m = 0
  · left; simp [h1]
  · by_cases h2 : env.valuation * 10000 < a * (cfg.collateralRatioBps : Int)
    · left; simp [h1, h2]
    · by_cases h3 : env.lockOk
      · by_cases h4 : env.disburseOk
        · right
          refine ⟨by push_neg at h1; omega, ?_⟩
          simp [h1, h2, h3, h4, Store.nextId]
        · left; simp [h1, h2, h3, h4]
      · left; simp [h1, h2, h3]

/-- `makePayment` either returns the world unchanged (every error path) or,
on an `Active` loan and an accepted amount, stores exactly the payment
update. -/
theorem makePayment_store (env : Ext) (w : World) (loanId : Nat) (amount : Int) :
    (makePayment env w loanId amount).2 = w ∨
      (∃ loan, w.store.loans loanId = some loan ∧ loan.status = .Active ∧
        0 < amount ∧ amount ≤ loan.outstanding_balance ∧
        (makePayment env w loanId amount).2.store = w.store.putLoan (payLoan loan amount)) := by
  unfold makePayment
  cases hg : w.store.loans loanId with
  | none => left; simp
  | some loan =>
    by_cases h1 : loan.status = .Active
    · by_cases h2 : amount ≤ 0
      · left; simp [h1, h2]
      · by_cases h3 : env.transferOk
        · by_cases h4 : loan.outstanding_balance < amount
          · left; simp [h1, h2, h3, h4]
          · right
            refine ⟨loan, rfl, h1, by omega, by omega, ?_⟩
            by_cases h5 : (payLoan loan amount).outstanding_balance = 0 ∧ env.releaseOk
            · simp [h1, h2, h3, h4, h5]
            · simp [h1, h2, h3, h4, h5]
        · left; simp [h1, h2, h3]
    · left; simp [h1]

/-- `checkDefault` either returns the world unchanged or, on an `Active`
loan past its due date, stores exactly the missed-payment update. -/
theorem checkDefault_store (cfg : Config) (env : Ext) (w : World)
    (loanId now : Nat) :
    (checkDefault cfg env w loanId now).2 = w ∨
      (∃ loan, w.store.loans loanId = some loan ∧ loan.status = .Active ∧
        (checkDefault cfg env w loanId now).2.store =
          w.store.putLoan (missedUpdate cfg loan)) := by
  unfold checkDefault
  cases hg : w.store.loans loanId with
  | none => left; simp
  | some loan =>
    by_cases h1 : loan.status = .Active
    · by_cases h2 : now ≤ loan.next_payment_due
      · left; simp [h1, h2]
      · right
        refine ⟨loan, rfl, h1, ?_⟩
        by_cases h3 : (missedUpdate cfg loan).status = LoanStatus.Defaulted
        · by_cases h4 : env.liquidateOk
          · simp [h1, h2, h3, h4]
          · simp [h1, h2, h3, h4]
        · simp [h1, h2, h3]
    · left; simp [h1]

/-- The initial world satisfies the storage invariant. -/
theorem inv_init : Inv World.init := by
  intro id l hl
  simp [World.init, Store.init] at hl

/-- `originate` preserves the storage invariant. -/
theorem inv_originate (cfg : Config) (env : Ext) (w : World) (b : Address)
    (n : Nat) (a : Int) (r m t : Nat) (h : Inv w) :
    Inv (originate cfg env w b n a r m t).2 := by
  rcases originate_store cfg env w b n a r m t with hs | ⟨ha, hs⟩
  · intro id l hl
    rw [hs] at hl ⊢
    exact h id l hl
  · intro id l hl
    rw [hs] at hl ⊢
    rw [Store.appendBorrower_loans, Store.putLoan_loans, origLoan_loan_id,
      Store.nextId_loans] at hl
    rw [Store.appendBorrower_counter, Store.putLoan_counter]
    by_cases hid : id = w.store.counter
    · rw [if_pos hid] at hl
      cases hl
      have hmax : (0 : Int) ≤ max (compute_schedule a r m).2 0 := le_max_right _ _
      refine ⟨hid ▸ origLoan_loan_id w b n a r m t, ?_, ?_, ?_⟩
      · show id < w.store.nextId.2.counter
        simp [Store.nextId, hid]
      · show (0 : Int) ≤ a + max (compute_schedule a r m).2 0
        omega
      · intro h0
        exfalso
        have : a + max (compute_schedule a r m).2 0 = 0 := h0
        omega
    · rw [if_neg hid] at hl
      obtain ⟨e1, e2, e3, e4⟩ := h id l hl
      refine ⟨e1, ?_, e3, e4⟩
      show id < w.store.nextId.2.counter
      simp [Store.nextId]
      omega

/-- `makePayment` preserves the storage invariant. -/
theorem inv_makePayment (env : Ext) (w : World) (loanId : Nat) (amount : Int)
    (h : Inv w) : Inv (makePayment env w loanId amount).2 := by
  rcases makePayment_store env w loanId amount with hs | ⟨loan, hg, hact, hpos, hle, hs⟩
  · rw [hs]; exact h
  · intro id l hl
    rw [hs] at hl ⊢
    rw [Store.putLoan_loans, payLoan_loan_id] at hl
    rw [Store.putLoan_counter]
    obtain ⟨g1, g2, g3, g4⟩ := h loanId loan hg
    by_cases hid : id = loan.loan_id
    · rw [if_pos hid] at hl
      cases hl
      refine ⟨hid ▸ payLoan_loan_id loan amount, ?_, ?_, ?_⟩
      · omega
      · rw [payLoan_outstanding]; omega
      · intro h0
        rw [payLoan_outstanding] at h0
        rw [payLoan_status, if_pos h0]
    · rw [if_neg hid] at hl
      exact h id l hl

/-- `checkDefault` preserves the storage invariant. -/
theorem inv_checkDefault (cfg : Config) (env : Ext) (w : World)
    (loanId now : Nat) (h : Inv w) : Inv (checkDefault cfg env w loanId now).2 := by
  rcases checkDefault_store cfg env w loanId now with hs | ⟨loan, hg, hact, hs⟩
  · rw [hs]; exact h
  · intro id l hl
    rw [hs] at hl ⊢
    rw [Store.putLoan_loans, missedUpdate_loan_id] at hl
    rw [Store.putLoan_counter]
    obtain ⟨g1, g2, g3, g4⟩ := h loanId loan hg
    by_cases hid : id = loan.loan_id
    · rw [if_pos hid] at hl
      cases hl
      have hnz : loan.outstanding_balance ≠ 0 := by
        intro h0
        rw [g4 h0] at hact
        exact absurd hact (by decide)
      refine ⟨hid ▸ missedUpdate_loan_id cfg loan, ?_, ?_, ?_⟩
      · omega
      · rw [missedUpdate_outstanding]; omega
      · intro h0
        rw [missedUpdate_outstanding] at h0
        exact absurd h0 hnz
    · rw [if_neg hid] at hl
      exact h id l hl

/-- Every invocation preserves the storage invariant. -/
theorem inv_step (cfg : Config) (env : Ext) (op : Op) (w : World) (h : Inv w) :
    Inv (step cfg env op w).2 := by
  cases op with
  | originate b n a r m t => exact inv_originate cfg env w b n a r m t h
  | makePayment id a => exact inv_makePayment env w id a h
  | checkDefault id t => exact inv_checkDefault cfg env w id t h

/-- Every world reachable by a trace of invocations from the initial world
satisfies the storage invariant. -/
theorem inv_run (cfg : Config) (trace : List (Ext × Op)) : Inv (run cfg trace) := by
  have key : ∀ (l : List (Ext × Op)) (w : World), Inv w →
      Inv (l.foldl (fun w p => (step cfg p.1 p.2 w).2) w) := by
    intro l
    induction l with
    | nil => intro w hw; exact hw
    | cons p tl ih =>
      intro w hw
      exact ih _ (inv_step cfg p.1 p.2 w hw)
  exact key trace World.init inv_init

/-- One payment attempt keeps the loan present and never increases its
outstanding balance. -/
theorem makePayment_loans_le (env : Ext) (w : World) (loanId : Nat)
    (amount : Int) (loan : Loan) (hg : w.store.loans loanId = some loan) :
    ∃ loan', (makePayment env w loanId amount).2.store.loans loanId = some loan' ∧
      loan'.outstanding_balance ≤ loan.outstanding_balance := by
  rcases makePayment_store env w loanId amount with hs | ⟨loan2, hg2, hact, hpos, hle, hs⟩
  · exact ⟨loan, by rw [hs]; exact hg, le_refl _⟩
  · rw [hg2] at hg
    injection hg with hgeq
    rw [hs, Store.putLoan_loans, payLoan_loan_id]
    by_cases hid : loanId = loan2.loan_id
    · rw [if_pos hid]
      refine ⟨payLoan loan2 amount, rfl, ?_⟩
      rw [payLoan_outstanding, hgeq]
      omega
    · rw [if_neg hid]
      exact ⟨loan, by rw [hgeq] at hg2; exact hg2, le_refl _⟩

/-- Across any sequence of payment attempts the outstanding balance of the
targeted loan is non-increasing. -/
theorem applyPayments_loans_le (env : Ext) (loanId : Nat) :
    ∀ (amounts : List Int) (w : World) (loan : Loan),
      w.store.loans loanId = some loan →
      ∃ loan', (applyPayments env w loanId amounts).store.loans loanId = some loan' ∧
        loan'.outstanding_balance ≤ loan.outstanding_balance := by
  intro amounts
  induction amounts with
  | nil => exact fun w loan hg => ⟨loan, hg, le_refl _⟩
  | cons a tl ih =>
    intro w loan hg
    obtain ⟨loan1, hg1, hle1⟩ := makePayment_loans_le env w loanId a loan hg
    obtain ⟨loan2, hg2, hle2⟩ := ih (makePayment env w loanId a).2 loan1 hg1
    exact ⟨loan2, hg2, le_trans hle2 hle1⟩

/-- Claim C7: in every world reachable by any trace of invocations, every
persisted loan has a non-negative outstanding balance which is zero only on
`Repaid` loans; and across every sequence of payments applied to a loan its
outstanding balance is non-increasing. -/
theorem c7_balance_invariants (cfg : Config) (trace : List (Ext × Op)) (env : Ext)
    (loanId : Nat) (amounts : List Int) :
    (∀ id l, (run cfg trace).store.loans id = some l →
        0 ≤ l.outstanding_balance ∧ (l.outstanding_balance = 0 → l.status = .Repaid)) ∧
    (∀ (w : World) (loan loan' : Loan), w.store.loans loanId = some loan →
        (applyPayments env w loanId amounts).store.loans loanId = some loan' →
        loan'.outstanding_balance ≤ loan.outstanding_balance) := by
  constructor
  · intro id l hl
    obtain ⟨-, -, h3, h4⟩ := inv_run cfg trace id l hl
    exact ⟨h3, h4⟩
  · intro w loan loan' hg hg'
    obtain ⟨loan2, hg2, hle⟩ := applyPayments_loans_le env loanId amounts w loan hg
    rw [hg2] at hg'
    injection hg' with hg'
    exact hg' ▸ hle

/-- A one-invocation trace originating a zero-rate loan of 1000 over ten
months; it produces exactly the record `loan0` under id 1. -/
def trace0 : List (Ext × Op) := [(extOk, Op.originate 7 42 1000 0 10 0)]

/-- The record `loan0` after one accepted payment of 100. -/
def loan1b : Loan :=
  { loan_id := 1, borrower := 7, nft_collateral_id := 42, loan_amount := 1000,
    outstanding_balance := 900, total_repaid := 100, interest_rate := 0,
    duration_months := 10, monthly_payment := 100, start_timestamp := 0,
    next_payment_due := monthSeconds + monthSeconds, status := .Active,
    payments_made := 1, payments_missed := 0 }

/-- Witness for claim C7: after running `trace0` the persisted loan satisfies
the balance invariants, and one payment of 100 takes its balance from 1000
down to 900, a non-increasing step. -/
theorem c7_witness :
    (0 ≤ loan0.outstanding_balance ∧
        (loan0.outstanding_balance = 0 → loan0.status = .Repaid)) ∧
      loan1b.outstanding_balance ≤ loan0.outstanding_balance :=
  ⟨(c7_balance_invariants cfg0 trace0 extOk 1 [100]).1 1 loan0 rfl,
   (c7_balance_invariants cfg0 trace0 extOk 1 [100]).2 (run cfg0 trace0) loan0 loan1b
      rfl rfl⟩

/-- A payment against a loan that is not `Active` fails with `InvalidState`
and changes nothing. -/
theorem makePayment_not_active (env : Ext) (w : World) (loanId : Nat)
    (amount : Int) (loan : Loan) (hg : w.store.loans loanId = some loan)
    (hns : loan.status ≠ .Active) :
    makePayment env w loanId amount = (.error .InvalidState, w) := by
  simp [makePayment, hg, hns]

/-- A default check against a loan that is not `Active` fails with
`InvalidState` and changes nothing. -/
theorem checkDefault_not_active (cfg : Config) (env : Ext) (w : World)
    (loanId now : Nat) (loan : Loan) (hg : w.store.loans loanId = some loan)
    (hns : loan.status ≠ .Active) :
    checkDefault cfg env w loanId now = (.error .InvalidState, w) := by
  simp [checkDefault, hg, hns]

/-- Origination never touches an already-persisted record. -/
theorem originate_frame (cfg : Config) (env : Ext) (w : World) (b : Address)
    (n : Nat) (a : Int) (r m t id : Nat) (loan : Loan)
    (hInv : Inv w) (hg : w.store.loans id = some loan) :
    (originate cfg env w b n a r m t).2.store.loans id = some loan := by
  rcases originate_store cfg env w b n a r m t with hs | ⟨-, hs⟩
  · rw [hs]; exact hg
  · rw [hs, Store.appendBorrower_loans, Store.putLoan_loans, origLoan_loan_id,
      Store.nextId_loans]
    rw [if_neg]
    · exact hg
    · have := (hInv id loan hg).2.1
      omega

/-- A payment leaves the record of a non-`Active` loan untouched, whatever
loan it targets. -/
theorem makePayment_frame_terminal (env : Ext) (w : World) (id2 : Nat)
    (a : Int) (id : Nat) (loan : Loan) (hInv : Inv w)
    (hg : w.store.loans id = some loan) (hns : loan.status ≠ .Active) :
    (makePayment env w id2 a).2.store.loans id = some loan := by
  rcases makePayment_store env w id2 a with hs | ⟨loan2, hg2, hact2, -, -, hs⟩
  · rw [hs]; exact hg
  · have hid2 : loan2.loan_id = id2 := (hInv id2 loan2 hg2).1
    rw [hs, Store.putLoan_loans, payLoan_loan_id]
    by_cases he : id = loan2.loan_id
    · exfalso
      have hide : id = id2 := by omega
      rw [hide, hg2] at hg
      injection hg with hgeq
      rw [hgeq] at hact2
      exact hns hact2
    · rw [if_neg he]; exact hg

/-- A default check leaves the record of a non-`Active` loan untouched,
whatever loan it targets. -/
theorem checkDefault_frame_terminal (cfg : Config) (env : Ext) (w : World)
    (id2 now : Nat) (id : Nat) (loan : Loan) (hInv : Inv w)
    (hg : w.store.loans id = some loan) (hns : loan.status ≠ .Active) :
    (checkDefault cfg env w id2 now).2.store.loans id = some loan := by
  rcases checkDefault_store cfg env w id2 now with hs | ⟨loan2, hg2, hact2, hs⟩
  · rw [hs]; exact hg
  · have hid2 : loan2.loan_id = id2 := (hInv id2 loan2 hg2).1
    rw [hs, Store.putLoan_loans, missedUpdate_loan_id]
    by_cases he : id = loan2.loan_id
    · exfalso
      have hide : id = id2 := by omega
      rw [hide, hg2] at hg
      injection hg with hgeq
      rw [hgeq] at hact2
      exact hns hact2
    · rw [if_neg he]; exact hg

/-- After a payment, a record either is unchanged or moved from `Active` to
`Repaid` or stayed `Active`. -/
theorem makePayment_status (env : Ext) (w : World) (id2 : Nat) (a : Int)
    (id : Nat) (loan loan' : Loan) (hInv : Inv w)
    (hg : w.store.loans id = some loan)
    (hg' : (makePayment env w id2 a).2.store.loans id = some loan') :
    loan' = loan ∨ (loan.status = .Active ∧
      (loan'.status = .Repaid ∨ loan'.status = .Active)) := by
  rcases makePayment_store env w id2 a with hs | ⟨loan2, hg2, hact2, -, -, hs⟩
  · left
    rw [hs, hg] at hg'
    injection hg' with h
    exact h.symm
  · rw [hs, Store.putLoan_loans, payLoan_loan_id] at hg'
    by_cases he : id = loan2.loan_id
    · rw [if_pos he] at hg'
      injection hg' with h
      have hid2 : loan2.loan_id = id2 := (hInv id2 loan2 hg2).1
      have hide : id = id2 := by omega
      rw [hide, hg2] at hg
      injection hg with hgeq
      right
      constructor
      · rw [← hgeq]; exact hact2
      · rw [← h, payLoan_status]
        by_cases hz : loan2.outstanding_balance - a = 0
        · rw [if_pos hz]; exact Or.inl rfl
        · rw [if_neg hz]; exact Or.inr rfl
    · rw [if_neg he] at hg'
      left
      rw [hg] at hg'
      injection hg' with h
      exact h.symm

/-- After a default check, a record either is unchanged or moved from
`Active` to `Defaulted` or stayed `Active`. -/
theorem checkDefault_status (cfg : Config) (env : Ext) (w : World)
    (id2 now : Nat) (id : Nat) (loan loan' : Loan) (hInv : Inv w)
    (hg : w.store.loans id = some loan)
    (hg' : (checkDefault cfg env w id2 now).2.store.loans id = some loan') :
    loan' = loan ∨ (loan.status = .Active ∧
      (loan'.status = .Defaulted ∨ loan'.status = .Active)) := by
  rcases checkDefault_store cfg env w id2 now with hs | ⟨loan2, hg2, hact2, hs⟩
  · left
    rw [hs, hg] at hg'
    injection hg' with h
    exact h.symm
  · rw [hs, Store.putLoan_loans, missedUpdate_loan_id] at hg'
    by_cases he : id = loan2.loan_id
    · rw [if_pos he] at hg'
      injection hg' with h
      have hid2 : loan2.loan_id = id2 := (hInv id2 loan2 hg2).1
      have hide : id = id2 := by omega
      rw [hide, hg2] at hg
      injection hg with hgeq
      right
      constructor
      · rw [← hgeq]; exact hact2
      · rcases missedUpdate_status cfg loan2 with hm | hm
        · exact Or.inl (by rw [← h]; exact hm)
        · right
          rw [← h, hm]
          exact hact2
    · rw [if_neg he] at hg'
      left
      rw [hg] at hg'
      injection hg' with h
      exact h.symm

/-- Claim C8: under the storage invariant, every invocation moves a loan's
status only along the graph `Pending → Active`, `Active → Repaid`,
`Active → Defaulted` (or leaves it in place); and once a loan is `Repaid` or
`Defaulted`, no invocation changes its record, while `MakePayment` and
`CheckDefault` on it fail with `InvalidState` leaving the world unchanged. -/
theorem c8_status_transitions (cfg : Config) (env : Ext) (op : Op) (w : World)
    (id : Nat) (loan : Loan) (a : Int) (now : Nat)
    (hInv : Inv w) (hGet : w.store.loans id = some loan) :
    (∀ loan', (step cfg env op w).2.store.loans id = some loan' →
        StatusEdge loan.status loan'.status) ∧
    ((loan.status = .Repaid ∨ loan.status = .Defaulted) →
      (step cfg env op w).2.store.loans id = some loan ∧
        makePayment env w id a = (.error .InvalidState, w) ∧
        checkDefault cfg env w id now = (.error .InvalidState, w)) := by
  have hterm : (loan.status = .Repaid ∨ loan.status = .Defaulted) →
      loan.status ≠ .Active := by
    rintro (h | h) <;> rw [h] <;> exact fun hc => by cases hc
  constructor
  · intro loan' h'
    cases op with
    | originate b n a2 r m t =>
      have hf := originate_frame cfg env w b n a2 r m t id loan hInv hGet
      have hstep : (step cfg env (Op.originate b n a2 r m t) w).2 =
          (originate cfg env w b n a2 r m t).2 := rfl
      rw [hstep, hf] at h'
      injection h' with h'
      exact Or.inl (by rw [h'])
    | makePayment id2 a2 =>
      have hstep : (step cfg env (Op.makePayment id2 a2) w).2 =
          (makePayment env w id2 a2).2 := rfl
      rw [hstep] at h'
      rcases makePayment_status env w id2 a2 id loan loan' hInv hGet h' with
        he | ⟨ha2, hst⟩
      · exact Or.inl (by rw [he])
      · rcases hst with hst | hst
        · exact Or.inr (Or.inr ⟨ha2, Or.inl hst⟩)
        · exact Or.inl (by rw [ha2, hst])
    | checkDefault id2 t2 =>
      have hstep : (step cfg env (Op.checkDefault id2 t2) w).2 =
          (checkDefault cfg env w id2 t2).2 := rfl
      rw [hstep] at h'
      rcases checkDefault_status cfg env w id2 t2 id loan loan' hInv hGet h' with
        he | ⟨ha2, hst⟩
      · exact Or.inl (by rw [he])
      · rcases hst with hst | hst
        · exact Or.inr (Or.inr ⟨ha2, Or.inr hst⟩)
        · exact Or.inl (by rw [ha2, hst])
  · intro ht
    have hna := hterm ht
    refine ⟨?_, makePayment_not_active env w id a loan hGet hna,
      checkDefault_not_active cfg env w id now loan hGet hna⟩
    cases op with
    | originate b n a2 r m t =>
      exact originate_frame cfg env w b n a2 r m t id loan hInv hGet
    | makePayment id2 a2 =>
      exact makePayment_frame_terminal env w id2 a2 id loan hInv hGet hna
    | checkDefault id2 t2 =>
      exact checkDefault_frame_terminal cfg env w id2 t2 id loan hInv hGet hna

/-- A fully repaid loan record. -/
def loanR : Loan :=
  { loan0 with
      outstanding_balance := 0
      total_repaid := 1000
      status := .Repaid
      payments_made := 10 }

/-- A concrete world holding the terminal record `loanR` under id 1. -/
def w2 : World :=
  { store :=
      { counter := 2,
        loans := fun id => if id = 1 then some loanR else none,
        borrowerIdx := fun _ => [] },
    locked := [] }

/-- The concrete world `w2` satisfies the storage invariant. -/
theorem inv_w2 : Inv w2 := by
  intro id l hl
  by_cases hid : id = 1
  · subst hid
    have hl2 : some loanR = some l := by rw [← hl]; simp [w2]
    injection hl2 with h2
    subst h2
    exact ⟨rfl, by decide, by decide, fun _ => rfl⟩
  · simp [w2, hid] at hl

/-- Witness for claim C8: on the concrete `Repaid` loan of `w2`, both
`MakePayment` and `CheckDefault` fail with `InvalidState` and return the
world unchanged. -/
theorem c8_witness :
    makePayment extOk w2 1 100 = (.error .InvalidState, w2) ∧
      checkDefault cfg0 extOk w2 1 99999999 = (.error .InvalidState, w2) := by
  have h := (c8_status_transitions cfg0 extOk (Op.makePayment 1 100) w2 1 loanR 100
      99999999 inv_w2 rfl).2 (Or.inl rfl)
  exact ⟨h.2.1, h.2.2⟩

/-- The store after `k` calls of `next_id`. -/
def Store.afterCalls (s : Store) : Nat → Store
  | 0 => s
  | k + 1 => ((s.afterCalls k).nextId).2

/-- The id assigned by the `(k+1)`-th call of `next_id`. -/
def Store.idAt (s : Store) (k : Nat) : Nat := ((s.afterCalls k).nextId).1

/-- Each `next_id` call advances the counter by exactly one. -/
theorem Store.afterCalls_counter (s : Store) (k : Nat) :
    (s.afterCalls k).counter = s.counter + k := by
  induction k with
  | zero => rfl
  | succ k ih =>
    show ((s.afterCalls k).nextId).2.counter = s.counter + (k + 1)
    simp [Store.nextId, ih]
    omega

/-- The id assigned by the `(k+1)`-th call is the starting counter plus `k`. -/
theorem Store.idAt_eq (s : Store) (k : Nat) : s.idAt k = s.counter + k := by
  show ((s.afterCalls k).nextId).1 = s.counter + k
  simp [Store.nextId, Store.afterCalls_counter]

/-- A successful origination returns exactly the pre-call counter as the id
and stores the fresh record against the bumped counter. -/
theorem originate_ok (cfg : Config) (env : Ext) (w : World) (b : Address)
    (n : Nat) (a : Int) (r m t : Nat) (id : Nat) (w' : World)
    (ho : originate cfg env w b n a r m t = (.ok id, w')) :
    id = w.store.counter ∧
      w'.store =
        ((w.store.nextId.2).putLoan (origLoan w b n a r m t)).appendBorrower
          b w.store.counter := by
  unfold originate at ho
  by_cases h1 : a ≤ 0 ∨ m = 0
  · rw [if_pos h1] at ho
    exact absurd (congrArg Prod.fst ho) (by simp)
  rw [if_neg h1] at ho
  by_cases h2 : env.valuation * 10000 < a * (cfg.collateralRatioBps : Int)
  · rw [if_pos h2] at ho
    exact absurd (congrArg Prod.fst ho) (by simp)
  rw [if_neg h2] at ho
  by_cases h3 : env.lockOk
  · rw [if_neg (not_not_intro h3)] at ho
    by_cases h4 : env.disburseOk
    · rw [if_neg (not_not_intro h4)] at ho
      simp only [Prod.mk.injEq, Except.ok.injEq] at ho
      obtain ⟨hok, hw⟩ := ho
      constructor
      · exact hok.symm
      · rw [← hw]
        rfl
    · rw [if_pos h4] at ho
      exact absurd (congrArg Prod.fst ho) (by simp)
  · rw [if_pos h3] at ho
    exact absurd (congrArg Prod.fst ho) (by simp)

/-- Claim C9: the loan counter starts at 1, each `next_id` call returns the
current counter and increments it, so the ids assigned by distinct calls are
distinct and never reused; `get` fails with `NotFound` exactly when no loan
with the id exists; and a successful origination assigns the fresh counter
value as the id of a record not previously present, leaving the counter
strictly larger. -/
theorem c9_loan_ids (s : Store) (cfg : Config) (env : Ext) (w : World)
    (b : Address) (n : Nat) (a : Int) (r m t id : Nat) (w' : World) :
    Store.init.counter = 1 ∧
    (∀ k, Store.idAt s k = s.counter + k) ∧
    (∀ j k, j ≠ k → Store.idAt s j ≠ Store.idAt s k) ∧
    (∀ i, Store.get s i = .error .NotFound ↔ s.loans i = none) ∧
    (Inv w → originate cfg env w b n a r m t = (.ok id, w') →
      id = w.store.counter ∧ w.store.loans id = none ∧
        (∃ l, w'.store.loans id = some l ∧ l.loan_id = id) ∧
        w.store.counter < w'.store.counter) := by
  refine ⟨rfl, Store.idAt_eq s, ?_, ?_, ?_⟩
  · intro j k hjk
    rw [Store.idAt_eq, Store.idAt_eq]
    omega
  · intro i
    cases h : s.loans i with
    | none => simp [Store.get, h]
    | some l => simp [Store.get, h]
  · intro hInv ho
    obtain ⟨hid, hstore⟩ := originate_ok cfg env w b n a r m t id w' ho
    have hnone : w.store.loans id = none := by
      cases hcase : w.store.loans id with
      | none => rfl
      | some l =>
        have hlt := (hInv id l hcase).2.1
        omega
    refine ⟨hid, hnone, ⟨origLoan w b n a r m t, ?_, ?_⟩, ?_⟩
    · rw [hstore, Store.appendBorrower_loans, Store.putLoan_loans, origLoan_loan_id,
        if_pos hid]
    · rw [origLoan_loan_id]
      exact hid.symm
    · rw [hstore, Store.appendBorrower_counter, Store.putLoan_counter]
      show w.store.counter < w.store.counter + 1
      omega

set_option maxRecDepth 10000

/-- Witness for claim C9: distinct `next_id` calls from the initial store
yield distinct ids, `get` on the empty store reports `NotFound`, and a
concrete successful origination assigns id 1, previously absent, and bumps
the counter. -/
theorem c9_witness :
    Store.idAt Store.init 2 ≠ Store.idAt Store.init 5 ∧
      (Store.get Store.init 1 = .error .NotFound ↔ Store.init.loans 1 = none) ∧
      (1 = World.init.store.counter ∧ World.init.store.loans 1 = none ∧
        (∃ l, (originate cfg0 extOk World.init 7 42 1000 0 10 0).2.store.loans 1 =
              some l ∧ l.loan_id = 1) ∧
        World.init.store.counter <
          (originate cfg0 extOk World.init 7 42 1000 0 10 0).2.store.counter) := by
  have h := c9_loan_ids Store.init cfg0 extOk World.init 7 42 1000 0 10 0 1
    (originate cfg0 extOk World.init 7 42 1000 0 10 0).2
  exact ⟨h.2.2.1 2 5 (by decide), h.2.2.2.1 1, h.2.2.2.2 inv_init rfl⟩

/-- Claim C10: `TestToken::mint` performs no authorization check: its result
does not depend on the invoker, and for every account and positive amount
(within the i128 supply bound modelled for the library facade) the call
succeeds and credits that account by exactly the amount, leaving every other
balance unchanged. -/
theorem c10_mint_no_auth (i1 i2 : Address) (s : TokenState) (account : Address)
    (amount : Int) (hpos : 0 < amount) (hcap : s.totalSupply + amount ≤ i128Max) :
    TestToken.mint i1 s account amount = TestToken.mint i2 s account amount ∧
    ∃ s', TestToken.mint i1 s account amount = .ok s' ∧
      s'.balances account = s.balances account + amount ∧
      (∀ a2, a2 ≠ account → s'.balances a2 = s.balances a2) ∧
      s'.totalSupply = s.totalSupply + amount := by
  have h1 : ¬ amount < 0 := by omega
  have h2 : ¬ i128Max < s.totalSupply + amount := not_lt.mpr hcap
  refine ⟨rfl,
    ⟨{ balances := fun a2 => if a2 = account then s.balances a2 + amount else s.balances a2,
       totalSupply := s.totalSupply + amount }, ?_, ?_, ?_, rfl⟩⟩
  · simp [TestToken.mint, h1, h2]
  · simp
  · intro a2 ha2
    simp [ha2]

/-- The empty token state. -/
def tok0 : TokenState := { balances := fun _ => 0, totalSupply := 0 }

/-- Witness for claim C10: two different invokers minting 100 to account 5 on
the empty token state get the same result, and the mint succeeds crediting
account 5 by exactly 100. -/
theorem c10_witness :
    TestToken.mint 3 tok0 5 100 = TestToken.mint 9 tok0 5 100 ∧
      ∃ s', TestToken.mint 3 tok0 5 100 = .ok s' ∧
        s'.balances 5 = tok0.balances 5 + 100 ∧
        (∀ a2, a2 ≠ 5 → s'.balances a2 = tok0.balances a2) ∧
        s'.totalSupply = tok0.totalSupply + 100 :=
  c10_mint_no_auth 3 9 tok0 5 100 (by decide) (by decide)

end RemitLend
